import Mathlib

/-
Verification development for the LocalInsight data-analysis repository
(src/tools.py and src/app.py).

The Python functions `execute_python_safe`, `validate_chart_output`,
`read_data_schema` (src/tools.py) and `parse_router_decision` (src/app.py)
are shallowly embedded as executable Lean functions.  External effects
(the pandas readers, the real `exec` of a fragment, library availability,
the file system) are passed in explicitly as oracle/environment data; the
control flow, pattern matching and string processing of the Python source
are translated statement by statement.

Modelling conventions, stated once:
* Python strings are `String`/`List Char`; `str.lower()`/`str.strip()` and
  the regex classes `\b`, `\s`, `\w` are modelled over ASCII (the Python
  originals also handle non-ASCII unicode classes; every concrete input
  used below is ASCII, where the two agree).
* Machine floats appear only as file sizes `n / 1024` and thresholds such
  as `1.0`; these are exactly representable, so sizes are modelled as `ℚ`.
* Process-wide state (current directory, `sys.stdout`/`sys.stderr`
  bindings, the set of existing directories) is an explicit `World`
  record, and every state-affecting call of the Python body additionally
  emits an `Action` into a trace so that "never reaches execution" /
  "no redirection was attempted" claims can be stated about the trace.
-/

namespace EchartsAgents

/-! ## Basic character/string helpers (ASCII models of Python behaviour) -/

/-- ASCII model of the Python regex class `\s` (and of the whitespace
stripped by `str.strip()`): space, tab, newline, carriage return,
vertical tab, form feed. -/
def isPySpace (c : Char) : Bool :=
  c = ' ' || c = '\t' || c = '\n' || c = '\r' || c = '\x0b' || c = '\x0c'

/-- ASCII model of the Python regex class `\w` (word characters), used by
the `\b` word-boundary assertion. -/
def isWordChar (c : Char) : Bool :=
  ('a' ≤ c && c ≤ 'z') || ('A' ≤ c && c ≤ 'Z') || ('0' ≤ c && c ≤ '9') || c = '_'

/-- ASCII model of `str.lower()` on a single character. -/
def pyLowerChar (c : Char) : Char :=
  if 'A' ≤ c && c ≤ 'Z' then Char.ofNat (c.toNat + 32) else c

/-- ASCII model of `str.lower()`. -/
def pyLowerL (cs : List Char) : List Char := cs.map pyLowerChar

/-- Drop trailing whitespace. -/
def dropTrailingWsL (cs : List Char) : List Char :=
  ((cs.reverse).dropWhile isPySpace).reverse

/-- ASCII model of `str.strip()`. -/
def pyStripL (cs : List Char) : List Char :=
  dropTrailingWsL (cs.dropWhile isPySpace)

/-- Model of the Python substring test `pat in hay`. -/
def containsL (hay pat : List Char) : Bool :=
  match hay with
  | [] => pat.isEmpty
  | c :: t => pat.isPrefixOf (c :: t) || containsL t pat

/-! ## The denylist regular expressions of `execute_python_safe`

The nine patterns in `dangerous_patterns` (src/tools.py lines 143-153) use
only literals, `\b`, `\s*` and `\s+`, so they are embedded as a tiny
pattern language.  In every pattern a `\s*`/`\s+` is followed by a
non-whitespace literal, so greedy maximal-munch matching coincides with
the backtracking semantics of `re.search`. -/

inductive RTok where
  | lit : List Char → RTok
  | ws0 : RTok
  | ws1 : RTok
deriving DecidableEq, Repr

/-- A pattern: optional leading `\b`, a token sequence, optional trailing `\b`. -/
structure RPat where
  lb : Bool
  toks : List RTok
  rb : Bool
deriving DecidableEq, Repr

/-- Is an optional character a word character (absent counts as non-word,
as at the ends of the subject string)? -/
def wordOpt : Option Char → Bool
  | some c => isWordChar c
  | none => false

/-- Consume the token sequence at the head of `cs`, tracking the last
consumed character (needed for a trailing `\b`).  Returns the last
consumed character and the rest of the input. -/
def matchToks (last : Option Char) : List RTok → List Char → Option (Option Char × List Char)
  | [], cs => some (last, cs)
  | RTok.lit l :: ts, cs =>
      if l.isPrefixOf cs then
        matchToks (match l.getLast? with | some c => some c | none => last) ts (cs.drop l.length)
      else none
  | RTok.ws0 :: ts, cs =>
      let sp := cs.takeWhile isPySpace
      matchToks (match sp.getLast? with | some c => some c | none => last) ts (cs.drop sp.length)
  | RTok.ws1 :: ts, cs =>
      match cs.head? with
      | some c =>
          if isPySpace c then
            let sp := cs.takeWhile isPySpace
            matchToks (match sp.getLast? with | some c2 => some c2 | none => last) ts (cs.drop sp.length)
          else none
      | none => none

/-- Does the pattern match starting exactly at the head of `cs`, where
`prev` is the character just before this position (`none` at the start of
the subject)? -/
def matchAt (p : RPat) (prev : Option Char) (cs : List Char) : Bool :=
  (!p.lb || (wordOpt prev != wordOpt cs.head?)) &&
  match matchToks none p.toks cs with
  | some (last, rest) => !p.rb || (wordOpt last != wordOpt rest.head?)
  | none => false

/-- Model of `re.search`: does the pattern match at some position? -/
def rsearch (p : RPat) (prev : Option Char) (cs : List Char) : Bool :=
  match cs with
  | [] => matchAt p prev []
  | c :: t => matchAt p prev (c :: t) || rsearch p (some c) t

/-- Shorthand for a literal token. -/
def sLit (s : String) : RTok := RTok.lit s.toList

/-- The denylist of `execute_python_safe` (src/tools.py lines 143-153),
pattern by pattern, in source order, with the blocked-operation names. -/
def dangerous_patterns : List (RPat × String) := [
  (⟨true, [sLit "os.system"], true⟩, "os.system"),
  (⟨true, [sLit "subprocess"], true⟩, "subprocess"),
  (⟨true, [sLit "eval", RTok.ws0, sLit "("], false⟩, "eval()"),
  (⟨true, [sLit "__import__"], true⟩, "__import__"),
  (⟨true, [sLit "rm", RTok.ws1, sLit "-rf"], false⟩, "rm command"),
  (⟨true, [sLit "shutil.rmtree"], true⟩, "shutil.rmtree"),
  (⟨true, [sLit "socket"], true⟩, "socket (network access)"),
  (⟨true, [sLit "urllib"], false⟩, "urllib (network access)"),
  (⟨true, [sLit "requests"], true⟩, "requests (network access)")
]

/-- The static guard of `execute_python_safe`: the name of the first
denylisted pattern found in the code fragment, if any (src/tools.py
lines 155-162). -/
def securityCheck (code : List Char) : Option String :=
  (dangerous_patterns.find? (fun pr => rsearch pr.1 none code)).map (·.2)

/-! ## The execution sandbox `execute_python_safe` (src/tools.py 110-348) -/

/-- A value that `sys.stdout`/`sys.stderr` can be bound to: an external
stream (the original binding) or an in-memory capture buffer
(`io.StringIO`). -/
inductive SStream where
  | extS : String → SStream
  | capture : String → SStream
deriving DecidableEq, Repr

/-- The process-wide mutable state touched by the sandbox. -/
structure World where
  cwd : String
  stdoutB : SStream
  stderrB : SStream
  dirs : List String
deriving DecidableEq, Repr

/-- One state-affecting call performed by the sandbox body, recorded in
order.  `mkdirA` is `os.makedirs`, `chdirA` is `os.chdir`, `importLib` is
one of the conditional dynamic library imports, `setStdout`/`setStderr`
are assignments to `sys.stdout`/`sys.stderr`, `execCode` is the `exec`
of the fragment. -/
inductive Action where
  | mkdirA : String → Action
  | chdirA : String → Action
  | importLib : String → Action
  | setStdout : SStream → Action
  | setStderr : SStream → Action
  | execCode : Action
deriving DecidableEq, Repr

/-- Outcome of `exec(code, exec_globals)`: normal completion with captured
stdout/stderr, an `Exception` (name, captured partial output), or a
`BaseException` that the inner `except Exception` clause does not catch. -/
inductive ExecOutcome where
  | ok : String → String → ExecOutcome
  | exc : String → String → String → ExecOutcome
  | fatal : String → ExecOutcome
deriving DecidableEq, Repr

/-- The external environment of one sandbox call: which of the three
conditionally imported libraries are installed, and what the `exec` of
this fragment would do.  `os.makedirs`/`os.chdir` are assumed to
succeed. -/
structure ExecEnv where
  matplotlibOk : Bool
  pyechartsOk : Bool
  numpyOk : Bool
  run : ExecOutcome
deriving DecidableEq, Repr

/-- The `ToolResponse` values `execute_python_safe` can build: the
security-guard failure, a dependency `ImportError` failure, success with
captured output, or an execution-error failure with partial output. -/
inductive ToolResp where
  | securityError : String → ToolResp
  | importError : String → ToolResp
  | execSuccess : String → String → ToolResp
  | execError : String → String → String → ToolResp
deriving DecidableEq, Repr

/-- How the call ends: a returned `ToolResponse`, or an uncaught
`BaseException` propagating out of the function. -/
inductive CallResult where
  | ret : ToolResp → CallResult
  | raised : String → CallResult
deriving DecidableEq, Repr

/-- Gate for the conditional matplotlib import (src/tools.py line 217). -/
def needsMatplotlib (code : List Char) : Bool :=
  containsL code "matplotlib".toList || containsL code "plt.".toList ||
    containsL code "plt,".toList

/-- Gate for the conditional pyecharts import (src/tools.py line 231). -/
def needsPyecharts (code : List Char) : Bool :=
  containsL code "pyecharts".toList || containsL (pyLowerL code) "echarts".toList

/-- Gate for the conditional numpy import (src/tools.py line 265). -/
def needsNumpy (code : List Char) : Bool :=
  containsL code "numpy".toList || containsL code "np.".toList

/-- The `try:` block of `execute_python_safe` (src/tools.py lines 141-340):
guard, `os.makedirs` + `os.chdir`, the three conditional imports, stream
redirection, `exec`, and the inner `except Exception` handler.  Returns
the world and trace as they stand when control transfers to `finally`. -/
def sandboxBody (code : List Char) (wd : String) (env : ExecEnv) (w : World) :
    World × List Action × CallResult :=
  match securityCheck code with
  | some name => (w, [], CallResult.ret (ToolResp.securityError name))
  | none =>
    let w2 : World :=
      { w with dirs := if wd ∈ w.dirs then w.dirs else wd :: w.dirs, cwd := wd }
    let t1 := [Action.mkdirA wd, Action.chdirA wd] ++
      (if needsMatplotlib code then [Action.importLib "matplotlib"] else [])
    if needsMatplotlib code && !env.matplotlibOk then
      (w2, t1, CallResult.ret (ToolResp.importError "matplotlib"))
    else
      let t2 := t1 ++ (if needsPyecharts code then [Action.importLib "pyecharts"] else [])
      if needsPyecharts code && !env.pyechartsOk then
        (w2, t2, CallResult.ret (ToolResp.importError "pyecharts"))
      else
        let t3 := t2 ++ (if needsNumpy code then [Action.importLib "numpy"] else [])
        if needsNumpy code && !env.numpyOk then
          (w2, t3, CallResult.ret (ToolResp.importError "numpy"))
        else
          let w3 : World :=
            { w2 with stdoutB := SStream.capture "stdout_capture",
                      stderrB := SStream.capture "stderr_capture" }
          let t4 := t3 ++ [Action.setStdout (SStream.capture "stdout_capture"),
                           Action.setStderr (SStream.capture "stderr_capture"),
                           Action.execCode]
          match env.run with
          | ExecOutcome.ok out err =>
              ({ w3 with stdoutB := w.stdoutB, stderrB := w.stderrB },
               t4 ++ [Action.setStdout w.stdoutB, Action.setStderr w.stderrB],
               CallResult.ret (ToolResp.execSuccess out err))
          | ExecOutcome.exc en out err =>
              ({ w3 with stdoutB := w.stdoutB, stderrB := w.stderrB },
               t4 ++ [Action.setStdout w.stdoutB, Action.setStderr w.stderrB],
               CallResult.ret (ToolResp.execError en out err))
          | ExecOutcome.fatal en => (w3, t4, CallResult.raised en)

/-- `execute_python_safe` (src/tools.py lines 110-348): the `try:` body
followed by the unconditional `finally:` block, which always restores the
original working directory and the original stream bindings.  Returns the
final world, the full trace of state-affecting calls, and the result. -/
def execute_python_safe (code : String) (working_dir : String) (env : ExecEnv)
    (w : World) : World × List Action × CallResult :=
  let r := sandboxBody code.toList working_dir env w
  ({ r.1 with cwd := w.cwd, stdoutB := w.stdoutB, stderrB := w.stderrB },
   r.2.1 ++ [Action.chdirA w.cwd, Action.setStdout w.stdoutB, Action.setStderr w.stderrB],
   r.2.2)

/-- Is this action the `exec` of the fragment? -/
def Action.isExec : Action → Bool
  | Action.execCode => true
  | _ => false

/-- Is this action an `os.makedirs` call? -/
def Action.isMkdir : Action → Bool
  | Action.mkdirA _ => true
  | _ => false

/-- Is this action a dynamic library import? -/
def Action.isImport : Action → Bool
  | Action.importLib _ => true
  | _ => false

/-- Relative to an initial world `w`: does this action leave the stream
bindings at their original values (i.e. it is not a redirection to a
capture buffer or to anything else)? -/
def preservesStreams (w : World) : Action → Bool
  | Action.setStdout s => if s = w.stdoutB then true else false
  | Action.setStderr s => if s = w.stderrB then true else false
  | _ => true

/-- Relative to an initial world `w`: does this action leave the current
directory at its original value? -/
def preservesCwd (w : World) : Action → Bool
  | Action.chdirA p => if p = w.cwd then true else false
  | _ => true

/-! ## The artifact validator `validate_chart_output` (src/tools.py 351-488)

Files are modelled by their raw byte content (`List Nat`, one entry per
byte); reading in text mode decodes those bytes as UTF-8, exactly as
Python's `open(..., encoding='utf-8')` does in strict mode. -/

/-- Is a byte a UTF-8 continuation byte `0x80..0xBF`? -/
def contOk (b : Nat) : Bool := 0x80 ≤ b && b ≤ 0xBF

/-- Allowed second byte of a three-byte sequence, by lead byte (excludes
overlong encodings and surrogates, as Python's strict decoder does). -/
def e0Ok (b b2 : Nat) : Bool :=
  if b = 0xE0 then 0xA0 ≤ b2 && b2 ≤ 0xBF
  else if b = 0xED then 0x80 ≤ b2 && b2 ≤ 0x9F
  else contOk b2

/-- Allowed second byte of a four-byte sequence, by lead byte (excludes
overlong encodings and code points above U+10FFFF). -/
def f0Ok (b b2 : Nat) : Bool :=
  if b = 0xF0 then 0x90 ≤ b2 && b2 ≤ 0xBF
  else if b = 0xF4 then 0x80 ≤ b2 && b2 ≤ 0x8F
  else contOk b2

/-- Strict UTF-8 decoding of a byte sequence, `none` on any decode error
(models `bytes.decode('utf-8')` raising `UnicodeDecodeError`). -/
def decodeUtf8 : List Nat → Option (List Char)
  | [] => some []
  | b :: rest =>
    if b ≤ 0x7F then
      match decodeUtf8 rest with
      | some cs => some (Char.ofNat b :: cs)
      | none => none
    else if 0xC2 ≤ b && b ≤ 0xDF then
      match rest with
      | b2 :: rest2 =>
        if contOk b2 then
          match decodeUtf8 rest2 with
          | some cs => some (Char.ofNat ((b - 0xC0) * 0x40 + (b2 - 0x80)) :: cs)
          | none => none
        else none
      | [] => none
    else if 0xE0 ≤ b && b ≤ 0xEF then
      match rest with
      | b2 :: b3 :: rest3 =>
        if e0Ok b b2 && contOk b3 then
          match decodeUtf8 rest3 with
          | some cs =>
              some (Char.ofNat ((b - 0xE0) * 0x1000 + (b2 - 0x80) * 0x40 + (b3 - 0x80)) :: cs)
          | none => none
        else none
      | _ => none
    else if 0xF0 ≤ b && b ≤ 0xF4 then
      match rest with
      | b2 :: b3 :: b4 :: rest4 =>
        if f0Ok b b2 && contOk b3 && contOk b4 then
          match decodeUtf8 rest4 with
          | some cs =>
              some (Char.ofNat ((b - 0xF0) * 0x40000 + (b2 - 0x80) * 0x1000 +
                    (b3 - 0x80) * 0x40 + (b4 - 0x80)) :: cs)
          | none => none
        else none
      | _ => none
    else none

/-- A file system: association of paths to raw byte contents.  Lookup is
`os.path.exists` plus reading. -/
def FS := List (String × List Nat)

/-- Look up a file's bytes. -/
def lookupFile (fs : FS) (p : String) : Option (List Nat) :=
  match fs with
  | [] => none
  | (q, bs) :: t => if q = p then some bs else lookupFile t p

/-- Outcome of `validate_chart_output`, one constructor per `return`
statement of the source.  `usedMatplotlibHint` records which of the two
engine-specific hint strings the not-found message used; the diagnostic
echo of the raw engine string in the response metadata is not modelled.
`passHTML` carries the supplementary (non-blocking) `has_echarts` bit. -/
inductive VOutcome where
  | fileNotFound : String → Bool → VOutcome
  | fileTooSmall : ℚ → VOutcome
  | invalidPNG : VOutcome
  | passPNG : VOutcome
  | invalidHTML : VOutcome
  | passHTML : Bool → VOutcome
  | excErr : String → VOutcome
deriving DecidableEq, Repr

/-- The PNG magic signature `\x89PNG\r\n\x1a\n` (src/tools.py line 416). -/
def pngSignature : List Nat := [0x89, 0x50, 0x4E, 0x47, 0x0D, 0x0A, 0x1A, 0x0A]

/-- The root-markup marker `<html` searched for in the lowercased text
(src/tools.py line 452). -/
def htmlMarker : List Char := "<html".toList

/-- The supplementary `echarts` keyword (src/tools.py line 453). -/
def echartsMarker : List Char := "echarts".toList

/-- Default-path resolution of `validate_chart_output` (src/tools.py
lines 375-379): an omitted path defaults on `engine == "matplotlib"`
versus anything else. -/
def resolveChartPath (engine : String) (file_path : Option String) : String :=
  match file_path with
  | some p => p
  | none => if engine = "matplotlib" then "./temp/visual_result.png"
            else "./temp/visual_result.html"

/-- `validate_chart_output` (src/tools.py lines 351-488): existence check,
size check against `min_size_kb` (sizes in KiB as exact rationals), then
the engine-dependent structural check — PNG magic bytes when
`engine == "matplotlib"`, else UTF-8 text containing `<html`
(case-insensitively); `echarts` presence is recorded but never fails. -/
def validate_chart_output (engine : String) (file_path : Option String)
    (min_size_kb : ℚ) (fs : FS) : VOutcome :=
  let path := resolveChartPath engine file_path
  match lookupFile fs path with
  | none => VOutcome.fileNotFound path (engine = "matplotlib")
  | some bytes =>
    let size_kb : ℚ := (bytes.length : ℚ) / 1024
    if size_kb < min_size_kb then VOutcome.fileTooSmall size_kb
    else if engine = "matplotlib" then
      if bytes.take 8 = pngSignature then VOutcome.passPNG else VOutcome.invalidPNG
    else
      match decodeUtf8 bytes with
      | none => VOutcome.excErr "UnicodeDecodeError"
      | some cs =>
          if containsL (pyLowerL cs) htmlMarker then
            VOutcome.passHTML (containsL (pyLowerL cs) echartsMarker)
          else VOutcome.invalidHTML

/-- Did validation pass? -/
def VOutcome.isPass : VOutcome → Bool
  | VOutcome.passPNG => true
  | VOutcome.passHTML _ => true
  | _ => false

/-- The format's mandatory structural check, as the source performs it:
PNG magic bytes for `engine == "matplotlib"`, else decodable text whose
lowercasing contains `<html`. -/
def mandatoryOk (engine : String) (bytes : List Nat) : Bool :=
  if engine = "matplotlib" then bytes.take 8 = pngSignature
  else
    match decodeUtf8 bytes with
    | some cs => containsL (pyLowerL cs) htmlMarker
    | none => false

/-! ## The schema inspector `read_data_schema` (src/tools.py 21-107)

The two `pandas` reads are an external effect: they are modelled by an
oracle mapping a path to a parse outcome.  Both reads of the function hit
the same on-disk file within one call, so the bounded `nrows=5` read is
the 5-row prefix of the oracle's table. -/

/-- Outcome of a `pd.read_csv`/`pd.read_excel` call on a given file:
a parsed table (column names, dtype strings, data rows as cell lists),
the `pandas.errors.EmptyDataError` exception, or some other exception. -/
inductive ParseOutcome where
  | table : List String → List String → List (List String) → ParseOutcome
  | emptyErr : ParseOutcome
  | err : String → ParseOutcome
deriving DecidableEq, Repr

/-- Environment of one `read_data_schema` call: which files exist (with
byte sizes), and what each pandas reader returns per path. -/
structure ReadEnv where
  files : List (String × Nat)
  readCsv : String → ParseOutcome
  readExcel : String → ParseOutcome

/-- Look up a file's size, `none` when `os.path.exists` is false. -/
def lookupSize (files : List (String × Nat)) (p : String) : Option Nat :=
  match files with
  | [] => none
  | (q, n) :: t => if q = p then some n else lookupSize t p

/-- The extension part of `os.path.splitext(p)[1]`: from the last dot of
the final path component, unless every character before that dot within
the component is itself a dot (so `.bashrc` has no extension). -/
def splitextExt (p : String) : String :=
  let base := ((p.toList.reverse).takeWhile (fun c => c ≠ '/')).reverse
  match (List.range base.length).filter (fun i => base.getD i ' ' = '.') |>.getLast? with
  | none => ""
  | some i => if (base.take i).all (fun c => c = '.') then "" else String.mk (base.drop i)

/-- `os.path.splitext(file_path)[1].lower()` (src/tools.py line 51). -/
def extLower (p : String) : String := String.mk (pyLowerL (splitextExt p).toList)

/-- The schema payload built on the success path (src/tools.py 67-81):
column names, dtype strings and sample rows from the bounded 5-row read,
the two shape counts, and the file metadata (size is kept in raw bytes;
the source rounds `size/1024` to two decimals for display). -/
structure SchemaReport where
  columns : List String
  dtypes : List String
  sample_data : List (List String)
  sampleRows : Nat
  totalRows : Nat
  cols : Nat
  path : String
  ext : String
  sizeBytes : Nat
deriving DecidableEq, Repr

/-- Outcome of `read_data_schema`, one constructor per `return` of the
source: missing file, unsupported extension, success, the
`pd.errors.EmptyDataError` handler, and the generic `Exception` handler. -/
inductive RDSResult where
  | notFound : RDSResult
  | unsupported : String → RDSResult
  | success : SchemaReport → RDSResult
  | emptyData : RDSResult
  | err : String → RDSResult
deriving DecidableEq, Repr

/-- Which pandas reader the extension dispatch selects, if any
(src/tools.py lines 53-58); `none` means the unsupported-format branch. -/
def dispatchRead (env : ReadEnv) (p : String) : Option ParseOutcome :=
  let ext := extLower p
  if ext = ".csv" then some (env.readCsv p)
  else if ext = ".xlsx" ∨ ext = ".xls" then some (env.readExcel p)
  else none

/-- `read_data_schema` (src/tools.py lines 21-107): existence check,
extension dispatch, then either the success payload (sample = 5-row
prefix, `total_rows` from the full read, `cols` from the column list) or
the corresponding exception handler. -/
def read_data_schema (env : ReadEnv) (file_path : String) : RDSResult :=
  match lookupSize env.files file_path with
  | none => RDSResult.notFound
  | some size =>
    match dispatchRead env file_path with
    | none => RDSResult.unsupported (extLower file_path)
    | some (ParseOutcome.table cols dts rows) =>
        RDSResult.success
          { columns := cols
            dtypes := dts
            sample_data := rows.take 5
            sampleRows := (rows.take 5).length
            totalRows := rows.length
            cols := cols.length
            path := file_path
            ext := extLower file_path
            sizeBytes := size }
    | some ParseOutcome.emptyErr => RDSResult.emptyData
    | some (ParseOutcome.err n) => RDSResult.err n

/-! ## The router parser `parse_router_decision` (src/app.py 434-525)

The function strips markdown code fences, extracts brace-delimited
fragments containing `"route"` with the regex
`\x7b[^\x7b\x7d]*"route"[^\x7b\x7d]*\x7d`, feeds them (last first) to
`json.loads`, normalizes the route/engine fields, and falls back to
keyword scanning and finally to a hard default.  A flat JSON parser is
embedded below; nested objects cannot occur in a regex match because the
matched region is brace-free inside. -/

/-- The opening brace character (written via its code point throughout). -/
def lbrace : Char := '\x7b'

/-- The closing brace character. -/
def rbrace : Char := '\x7d'

/-- A decoded JSON value.  Numbers keep their source lexeme: Python's
`str()` may reformat a float (e.g. `1e2` to `100.0`), but no reformatting
produces letters, which is all the surrounding code ever tests for. -/
inductive JVal where
  | str : String → JVal
  | num : String → JVal
  | bool : Bool → JVal
  | null : JVal
  | arr : List JVal → JVal

/-- Comma-space join, as in Python's `str()` of a list. -/
def joinCommaSep : List (List Char) → List Char
  | [] => []
  | [x] => x
  | x :: y :: t => x ++ (',' :: ' ' :: joinCommaSep (y :: t))

mutual
/-- Model of Python `str()` (flag false) and `repr()` (flag true) on a
decoded JSON value.  `repr` of a string is modelled as single-quoting
without escaping (they agree whenever the string has no quotes,
backslashes or non-printable characters). -/
def pyStrQ (quoted : Bool) : JVal → List Char
  | JVal.str s => if quoted then '\'' :: (s.toList ++ ['\'']) else s.toList
  | JVal.num l => l.toList
  | JVal.bool b => if b then "True".toList else "False".toList
  | JVal.null => "None".toList
  | JVal.arr vs => '[' :: (joinCommaSep (pyStrItems vs) ++ [']'])

/-- `repr()` of each element of a list. -/
def pyStrItems : List JVal → List (List Char)
  | [] => []
  | v :: t => pyStrQ true v :: pyStrItems t
end

/-- Model of Python `str()`. -/
def pyStr (v : JVal) : List Char := pyStrQ false v

/-- JSON insignificant whitespace. -/
def skipWs (cs : List Char) : List Char :=
  cs.dropWhile (fun c => c = ' ' || c = '\t' || c = '\n' || c = '\r')

/-- Hex digit value. -/
def hexVal (c : Char) : Option Nat :=
  if '0' ≤ c && c ≤ '9' then some (c.toNat - 48)
  else if 'a' ≤ c && c ≤ 'f' then some (c.toNat - 87)
  else if 'A' ≤ c && c ≤ 'F' then some (c.toNat - 55)
  else none

/-- Simple escape characters of JSON strings. -/
def escChar (c : Char) : Option Char :=
  if c = '"' then some '"'
  else if c = '\\' then some '\\'
  else if c = '/' then some '/'
  else if c = 'b' then some '\x08'
  else if c = 'f' then some '\x0c'
  else if c = 'n' then some '\n'
  else if c = 'r' then some '\r'
  else if c = 't' then some '\t'
  else none

/-- Combine four hex digits into a code unit. -/
def hex4 (a b c d : Char) : Option Nat :=
  match hexVal a, hexVal b, hexVal c, hexVal d with
  | some x, some y, some z, some w => some (x * 4096 + y * 256 + z * 16 + w)
  | _, _, _, _ => none

/-- Parse the body of a JSON string literal (input starts after the
opening quote; `fuel` bounds recursion and is always supplied as more
than the input length, which each step strictly consumes); returns the decoded characters and the rest after the
closing quote.  Strict mode: raw control characters are rejected.
Surrogate pairs combine; a lone surrogate (which Python keeps as a
lone-surrogate code unit, unrepresentable in `Char`) is modelled as NUL.
After a high surrogate whose following `\u` escape is not a low
surrogate, scanning resumes at that second escape, as Python does. -/
def parseStrAux : Nat → List Char → Option (List Char × List Char)
  | 0, _ => none
  | Nat.succ _, [] => none
  | Nat.succ fuel, c :: rest =>
    if c = '"' then some ([], rest)
    else if c = '\\' then
      match rest with
      | [] => none
      | e :: rest2 =>
        if e = 'u' then
          match rest2 with
          | h1 :: h2 :: h3 :: h4 :: rest3 =>
            match hex4 h1 h2 h3 h4 with
            | none => none
            | some v =>
              if 0xD800 ≤ v && v ≤ 0xDBFF then
                match rest3 with
                | b1 :: b2 :: g1 :: g2 :: g3 :: g4 :: rest4 =>
                  if b1 = '\\' && b2 = 'u' then
                    match hex4 g1 g2 g3 g4 with
                    | none => none
                    | some v2 =>
                      if 0xDC00 ≤ v2 && v2 ≤ 0xDFFF then
                        match parseStrAux fuel rest4 with
                        | some (s, r) =>
                            some (Char.ofNat (0x10000 + (v - 0xD800) * 0x400 + (v2 - 0xDC00)) :: s, r)
                        | none => none
                      else
                        match parseStrAux fuel (b1 :: b2 :: g1 :: g2 :: g3 :: g4 :: rest4) with
                        | some (s, r) => some (Char.ofNat 0 :: s, r)
                        | none => none
                  else
                    match parseStrAux fuel (b1 :: b2 :: g1 :: g2 :: g3 :: g4 :: rest4) with
                    | some (s, r) => some (Char.ofNat 0 :: s, r)
                    | none => none
                | _ =>
                  match parseStrAux fuel rest3 with
                  | some (s, r) => some (Char.ofNat 0 :: s, r)
                  | none => none
              else
                match parseStrAux fuel rest3 with
                | some (s, r) => some (Char.ofNat v :: s, r)
                | none => none
          | _ => none
        else
          match escChar e with
          | some ec =>
            match parseStrAux fuel rest2 with
            | some (s, r) => some (ec :: s, r)
            | none => none
          | none => none
    else if c.toNat < 0x20 then none
    else
      match parseStrAux fuel rest with
      | some (s, r) => some (c :: s, r)
      | none => none

/-- Parse the integer-part digits of a JSON number: `0` alone, or a
nonzero digit followed by digits. -/
def parseIntPart : List Char → Option (List Char × List Char)
  | [] => none
  | c :: t =>
    if c = '0' then some ([c], t)
    else if c.isDigit then some (c :: t.takeWhile Char.isDigit, t.dropWhile Char.isDigit)
    else none

/-- Parse the optional fraction part `.digits` (consumed only when
well-formed, as the number regex of `json.loads` does). -/
def parseFracPart (cs : List Char) : List Char × List Char :=
  match cs with
  | '.' :: d :: t =>
    if d.isDigit then ('.' :: d :: t.takeWhile Char.isDigit, t.dropWhile Char.isDigit)
    else ([], cs)
  | _ => ([], cs)

/-- Parse the optional exponent part `[eE][+-]?digits` (consumed only
when well-formed). -/
def parseExpPart (cs : List Char) : List Char × List Char :=
  match cs with
  | e :: t =>
    if e = 'e' || e = 'E' then
      let (sgn, t2) :=
        match t with
        | s :: t2 => if s = '+' || s = '-' then ([s], t2) else (([] : List Char), t)
        | [] => ([], t)
      match t2 with
      | d :: t3 =>
        if d.isDigit then (e :: (sgn ++ (d :: t3.takeWhile Char.isDigit)), t3.dropWhile Char.isDigit)
        else ([], cs)
      | [] => ([], cs)
    else ([], cs)
  | [] => ([], cs)

/-- Parse a JSON number (or `Infinity`/`-Infinity`, which `json.loads`
accepts) starting at `cs`; returns the lexeme and the rest. -/
def parseNumAux (cs : List Char) : Option (List Char × List Char) :=
  let (neg, cs1) :=
    match cs with
    | c :: t => if c = '-' then (([c] : List Char), t) else (([] : List Char), cs)
    | [] => ([], cs)
  match cs1 with
  | [] => none
  | c :: t =>
    if c = 'I' then
      if "nfinity".toList.isPrefixOf t then some (neg ++ "Infinity".toList, t.drop 7)
      else none
    else
      match parseIntPart (c :: t) with
      | none => none
      | some (ip, r1) =>
        let (fp, r2) := parseFracPart r1
        let (ep, r3) := parseExpPart r2
        some (neg ++ ip ++ fp ++ ep, r3)

mutual
/-- Parse one JSON value (strings, numbers, literals, arrays; `NaN` and
`Infinity` as `json.loads` accepts them).  An inner object cannot occur
in the brace-free regex matches this parser is applied to, and is
rejected.  `fuel` bounds recursion depth through arrays. -/
def parseVal : Nat → List Char → Option (JVal × List Char)
  | 0, _ => none
  | Nat.succ fuel, cs =>
    match cs with
    | [] => none
    | c :: t =>
      if c = '"' then
        match parseStrAux (t.length + 1) t with
        | some (s, r) => some (JVal.str (String.mk s), r)
        | none => none
      else if c = '[' then
        match skipWs t with
        | d :: t2 => if d = ']' then some (JVal.arr [], t2) else parseArrItems fuel t []
        | [] => none
      else if c = 't' then
        if "rue".toList.isPrefixOf t then some (JVal.bool true, t.drop 3) else none
      else if c = 'f' then
        if "alse".toList.isPrefixOf t then some (JVal.bool false, t.drop 4) else none
      else if c = 'n' then
        if "ull".toList.isPrefixOf t then some (JVal.null, t.drop 3) else none
      else if c = 'N' then
        if "aN".toList.isPrefixOf t then some (JVal.num "NaN", t.drop 2) else none
      else if c = 'I' ∨ c = '-' ∨ c.isDigit then
        match parseNumAux cs with
        | some (l, r) => some (JVal.num (String.mk l), r)
        | none => none
      else none

/-- Parse the comma-separated items of a non-empty array (input is
positioned just after `[` or after a comma). -/
def parseArrItems : Nat → List Char → List JVal → Option (JVal × List Char)
  | 0, _, _ => none
  | Nat.succ fuel, cs, acc =>
    match parseVal fuel (skipWs cs) with
    | none => none
    | some (v, r) =>
      match skipWs r with
      | d :: r2 =>
        if d = ',' then parseArrItems fuel r2 (v :: acc)
        else if d = ']' then some (JVal.arr (v :: acc).reverse, r2)
        else none
      | [] => none
end

/-- Parse the members of the top-level object (input is positioned just
after the opening brace or after a comma); returns the key-value pairs in
source order and the rest after the closing brace. -/
def parseMembers : Nat → List Char → List (String × JVal) →
    Option (List (String × JVal) × List Char)
  | 0, _, _ => none
  | Nat.succ fuel, cs, acc =>
    match skipWs cs with
    | c :: t =>
      if c = '"' then
        match parseStrAux (t.length + 1) t with
        | some (k, r) =>
          match skipWs r with
          | d :: r2 =>
            if d = ':' then
              match parseVal (Nat.succ fuel) (skipWs r2) with
              | some (v, r3) =>
                match skipWs r3 with
                | e :: r4 =>
                  if e = ',' then parseMembers fuel r4 (acc ++ [(String.mk k, v)])
                  else if e = rbrace then some (acc ++ [(String.mk k, v)], r4)
                  else none
                | [] => none
              | none => none
            else none
          | [] => none
        | none => none
      else none
    | [] => none

/-- Model of `json.loads` restricted to a top-level object, `none` on any
`JSONDecodeError` (including trailing data). -/
def jloads (m : List Char) : Option (List (String × JVal)) :=
  match skipWs m with
  | c :: t =>
    if c = lbrace then
      match skipWs t with
      | d :: _ =>
        if d = rbrace then
          if (skipWs ((skipWs t).drop 1)).isEmpty then some [] else none
        else
          match parseMembers m.length t [] with
          | some (ms, rest) => if (skipWs rest).isEmpty then some ms else none
          | none => none
      | [] => none
    else none
  | [] => none

/-- Python dict key-membership test (`'route' in decision`). -/
def hasKey (d : List (String × JVal)) (k : String) : Bool :=
  d.any (fun p => p.1 = k)

/-- Python dict indexing; with duplicate JSON keys the last wins, as in
`json.loads`. -/
def dGet (d : List (String × JVal)) (k : String) : JVal :=
  match d.reverse.find? (fun p => p.1 = k) with
  | some p => p.2
  | none => JVal.null

/-- Python `dict.get` with default. -/
def dGetD (d : List (String × JVal)) (k : String) (dflt : JVal) : JVal :=
  match d.reverse.find? (fun p => p.1 = k) with
  | some p => p.2
  | none => dflt

/-- Model of `re.sub(r'(three backticks)json\s*', '', s)`: remove every
occurrence of the fence marker together with the whitespace run after it,
scanning left to right.  The flag records whether the scanner is inside
the whitespace run following a removed marker. -/
def stripTicksJsonAux : Bool → List Char → List Char
  | _, [] => []
  | _, '\x60' :: '\x60' :: '\x60' :: 'j' :: 's' :: 'o' :: 'n' :: rest =>
      stripTicksJsonAux true rest
  | skip, c :: rest =>
      if skip && isPySpace c then stripTicksJsonAux true rest
      else c :: stripTicksJsonAux false rest

/-- Entry point of the `(three backticks)json\s*` removal. -/
def stripTicksJson (cs : List Char) : List Char := stripTicksJsonAux false cs

/-- Model of `re.sub(r'(three backticks)\s*', '', s)`, same scheme. -/
def stripTicksAux : Bool → List Char → List Char
  | _, [] => []
  | _, '\x60' :: '\x60' :: '\x60' :: rest => stripTicksAux true rest
  | skip, c :: rest =>
      if skip && isPySpace c then stripTicksAux true rest
      else c :: stripTicksAux false rest

/-- Entry point of the `(three backticks)\s*` removal. -/
def stripTicks (cs : List Char) : List Char := stripTicksAux false cs

/-- Model of `re.sub(r'(three backticks)\s*$', '', s)`: the unanchored
leftmost match of the anchored pattern removes a trailing fence marker
together with the trailing whitespace after it, when present. -/
def stripTrailingTicks (cs : List Char) : List Char :=
  let t := dropTrailingWsL cs
  if "\x60\x60\x60".toList.isSuffixOf t then t.take (t.length - 3) else cs

/-- The markdown-fence cleanup of `parse_router_decision`
(src/app.py lines 455-460). -/
def mdClean (cs : List Char) : List Char :=
  if containsL cs "\x60\x60\x60json".toList then stripTrailingTicks (stripTicksJson cs)
  else if containsL cs "\x60\x60\x60".toList then stripTicks cs
  else cs

/-- Model of `re.findall(json_pattern, s, re.DOTALL)` for the pattern
`\x7b[^\x7b\x7d]*"route"[^\x7b\x7d]*\x7d`: each match is an opening
brace, a brace-free region containing the literal `"route"` (with the
quotes), and a closing brace; scanning resumes after each match. -/
def routeMatchAt (c : Char) (rest : List Char) : List (List Char) :=
  if c = lbrace then
    let middle := rest.takeWhile (fun x => x ≠ lbrace && x ≠ rbrace)
    match rest.drop middle.length with
    | d :: _ =>
      if d = rbrace ∧ containsL middle ('"' :: ("route".toList ++ ['"'])) then
        [c :: (middle ++ [d])]
      else []
    | [] => []
  else []

/-- Every match of the pattern starts at an opening brace, and since the
matched interior is brace-free, the next possible match starts after the
consumed closing brace; scanning one character at a time therefore
produces exactly the non-overlapping `findall` matches. -/
def findRouteMatches : List Char → List (List Char)
  | [] => []
  | c :: rest => routeMatchAt c rest ++ findRouteMatches rest

/-- The structured-extraction stage of `parse_router_decision`: strip,
clean markdown fences, find the candidate objects, and try `json.loads`
on each from the last backwards, keeping the first parse that succeeds
and contains a `route` key (src/app.py lines 449-478). -/
def tryDecode : List (List Char) → Option (List (String × JVal))
  | [] => none
  | m :: rest =>
    match jloads m with
    | some d => if hasKey d "route" then some d else tryDecode rest
    | none => tryDecode rest

/-- Strip + markdown cleanup + regex extraction + reversed decode loop. -/
def structuredExtract (s : String) : Option (List (String × JVal)) :=
  tryDecode ((findRouteMatches (mdClean (pyStripL s.toList))).reverse)

/-- The value returned by `parse_router_decision`: route, engine, and the
reason (a decoded JSON value on the structured path, a literal string on
every fallback path). -/
structure RouterDecision where
  route : String
  engine : String
  reason : JVal

/-- Route synonyms mapped to `general` (src/app.py line 475). -/
def routeSynGeneral : List String := ["general", "simple", "简单", "简单问题"]

/-- Route synonyms mapped to `visualization` (src/app.py line 477). -/
def routeSynVis : List String := ["visualization", "visual", "chart", "可视化", "图表"]

/-- `parse_router_decision` (src/app.py lines 434-525): structured
extraction with route-synonym normalization and engine normalization to
the closed set, then a keyword fallback over the raw response, then the
hard default.  The model is total, as the source's final `except` clause
guarantees a returned decision on any internal failure. -/
def parse_router_decision (s : String) : RouterDecision :=
  match structuredExtract s with
  | some d =>
    let route0 := String.mk (pyStripL (pyLowerL (pyStr (dGet d "route"))))
    let route :=
      if route0 ∈ routeSynGeneral then "general"
      else if route0 ∈ routeSynVis then "visualization"
      else route0
    let engine0 := String.mk (pyStripL (pyLowerL (pyStr (dGetD d "engine" (JVal.str "matplotlib")))))
    let engine := if engine0 = "matplotlib" ∨ engine0 = "pyecharts" then engine0 else "matplotlib"
    { route := route, engine := engine, reason := dGetD d "reason" (JVal.str "未提供原因") }
  | none =>
    let lower := pyLowerL s.toList
    if containsL lower "general".toList || containsL s.toList "简单问题".toList ||
       containsL s.toList "不需要".toList then
      { route := "general", engine := "matplotlib", reason := JVal.str "检测到简单问题（基于关键词）" }
    else
      let engine :=
        if containsL s.toList "交互".toList || containsL lower "interactive".toList ||
           containsL lower "pyecharts".toList then "pyecharts" else "matplotlib"
      { route := "visualization", engine := engine, reason := JVal.str "需要可视化（默认路由）" }

/-! ## Concrete fixtures used by witnesses and counterexamples -/

/-- A fully available execution environment whose fragment would run
without output. -/
def wEnv : ExecEnv := ⟨true, true, true, ExecOutcome.ok "" ""⟩

/-- An initial process state before a sandbox call. -/
def wWorld : World :=
  ⟨"/home/user", SStream.extS "stdout", SStream.extS "stderr", ["/home/user"]⟩

/-- A CSV file that parses successfully (one column) but with zero data
rows — the shape a header-only CSV produces. -/
def zeroRowEnv : ReadEnv :=
  ⟨[("d.csv", 42)], fun _ => ParseOutcome.table ["x"] ["int64"] [],
   fun _ => ParseOutcome.err "unused"⟩

/-- A CSV file on which the pandas read raises `EmptyDataError`. -/
def emptyErrEnv : ReadEnv :=
  ⟨[("e.csv", 0)], fun _ => ParseOutcome.emptyErr, fun _ => ParseOutcome.err "unused"⟩

/-- A spreadsheet file with two columns and seven data rows. -/
def sevenRowEnv : ReadEnv :=
  ⟨[("d.xlsx", 100)], fun _ => ParseOutcome.err "unused",
   fun _ => ParseOutcome.table ["a", "b"] ["int64", "float64"]
     [["1", "2"], ["3", "4"], ["5", "6"], ["7", "8"], ["9", "0"], ["x", "y"], ["z", "w"]]⟩

/-- The report `read_data_schema` builds for `sevenRowEnv`. -/
def sevenReport : SchemaReport :=
  { columns := ["a", "b"]
    dtypes := ["int64", "float64"]
    sample_data := [["1", "2"], ["3", "4"], ["5", "6"], ["7", "8"], ["9", "0"]]
    sampleRows := 5
    totalRows := 7
    cols := 2
    path := "d.xlsx"
    ext := ".xlsx"
    sizeBytes := 100 }

/-- A file system holding a zero-byte file at the default PNG path. -/
def zeroFS : FS := [("./temp/visual_result.png", [])]

/-- A file system holding a tiny HTML file at the default HTML path. -/
def tinyHtmlFS : FS :=
  [("./temp/visual_result.html", "<html><body>ok</body></html>".toList.map Char.toNat)]

/-- Helper: if the `try:` body of the sandbox ended with a
SecurityViolation result, then the static guard matched; no other branch
of the body builds a `securityError`. -/
theorem sandboxBody_securityError (code : List Char) (wd : String) (env : ExecEnv)
    (w : World) (n : String)
    (h : (sandboxBody code wd env w).2.2 = CallResult.ret (ToolResp.securityError n)) :
    securityCheck code = some n := by
  rcases hs : securityCheck code with _ | m
  · rcases hr : env.run with _ | _ | _ <;>
      simp only [sandboxBody, hs, hr] at h <;>
      split at h <;> simp_all <;> split at h <;> simp_all <;> split at h <;> simp_all
  · simp only [sandboxBody, hs] at h
    simp_all

/-- C1: for every code fragment whose text matches a denylisted pattern,
`execute_python_safe` returns the SecurityViolation failure naming the
blocked operation, its trace contains no `exec` of the fragment, and the
stream bindings are never moved off their original values (so no
output-capture side effect is produced). -/
theorem guard_short_circuits (code working_dir : String) (env : ExecEnv) (w : World)
    (name : String) (h : securityCheck code.toList = some name) :
    (execute_python_safe code working_dir env w).2.2 =
        CallResult.ret (ToolResp.securityError name) ∧
    ((execute_python_safe code working_dir env w).2.1.all fun a => !a.isExec) = true ∧
    ((execute_python_safe code working_dir env w).2.1.all fun a =>
        preservesStreams w a) = true := by
  simp only [execute_python_safe, sandboxBody, h]
  simp [Action.isExec, preservesStreams]

/-- Witness for C1: the fragment `import subprocess` trips the guard. -/
theorem guard_short_circuits_witness :
    securityCheck ("import subprocess").toList = some "subprocess" ∧
    ((execute_python_safe "import subprocess" "./temp" wEnv wWorld).2.2 =
        CallResult.ret (ToolResp.securityError "subprocess") ∧
      ((execute_python_safe "import subprocess" "./temp" wEnv wWorld).2.1.all fun a =>
          !a.isExec) = true ∧
      ((execute_python_safe "import subprocess" "./temp" wEnv wWorld).2.1.all fun a =>
          preservesStreams wWorld a) = true) :=
  ⟨by decide, guard_short_circuits "import subprocess" "./temp" wEnv wWorld "subprocess"
    (by decide)⟩

/-- C2: whatever the outcome of the call (success, guard failure,
dependency failure, exception in the fragment, even an uncaught
`BaseException`), the `finally:` block leaves the working directory and
both stream bindings exactly as they were before the call. -/
theorem sandbox_restores_frame (code working_dir : String) (env : ExecEnv) (w : World) :
    (execute_python_safe code working_dir env w).1.cwd = w.cwd ∧
    (execute_python_safe code working_dir env w).1.stdoutB = w.stdoutB ∧
    (execute_python_safe code working_dir env w).1.stderrB = w.stderrB :=
  ⟨rfl, rfl, rfl⟩

/-- C9: whenever `execute_python_safe` returns a SecurityViolation, the
final state equals the initial state, the trace is exactly the restore
epilogue of the `finally:` block, and it contains no directory creation,
no library import, no `exec`, no change of the current directory away
from its original value, and no stream redirection away from the
original bindings: the guard runs strictly before scope setup. -/
theorem guard_failure_no_state_change (code working_dir : String) (env : ExecEnv)
    (w : World) (name : String)
    (h : (execute_python_safe code working_dir env w).2.2 =
        CallResult.ret (ToolResp.securityError name)) :
    (execute_python_safe code working_dir env w).1 = w ∧
    (execute_python_safe code working_dir env w).2.1 =
      [Action.chdirA w.cwd, Action.setStdout w.stdoutB, Action.setStderr w.stderrB] ∧
    ((execute_python_safe code working_dir env w).2.1.all fun a => !a.isMkdir) = true ∧
    ((execute_python_safe code working_dir env w).2.1.all fun a => !a.isImport) = true ∧
    ((execute_python_safe code working_dir env w).2.1.all fun a => !a.isExec) = true ∧
    ((execute_python_safe code working_dir env w).2.1.all fun a => preservesCwd w a) = true ∧
    ((execute_python_safe code working_dir env w).2.1.all fun a =>
        preservesStreams w a) = true := by
  have hg : securityCheck code.toList = some name :=
    sandboxBody_securityError code.toList working_dir env w name h
  simp only [execute_python_safe, sandboxBody, hg]
  simp [Action.isMkdir, Action.isImport, Action.isExec, preservesCwd, preservesStreams]

/-- Witness for C9: a fragment mentioning `socket` returns the
SecurityViolation result, and the state is untouched. -/
theorem guard_failure_no_state_change_witness :
    (execute_python_safe "import socket" "./temp" wEnv wWorld).1 = wWorld :=
  (guard_failure_no_state_change "import socket" "./temp" wEnv wWorld
    "socket (network access)" (by decide)).1

/-- C5: when no structured decision object can be extracted from the
classifier response and the text contains none of the route/engine
keyword hints, `parse_router_decision` returns the visualization route
with the matplotlib engine and the default-route reason string (the
model is total, so the call cannot abort). -/
theorem router_default_on_parse_failure (s : String)
    (h1 : structuredExtract s = none)
    (h2 : containsL (pyLowerL s.toList) ("general".toList) = false)
    (h3 : containsL s.toList ("简单问题".toList) = false)
    (h4 : containsL s.toList ("不需要".toList) = false)
    (h5 : containsL s.toList ("交互".toList) = false)
    (h6 : containsL (pyLowerL s.toList) ("interactive".toList) = false)
    (h7 : containsL (pyLowerL s.toList) ("pyecharts".toList) = false) :
    parse_router_decision s =
      { route := "visualization", engine := "matplotlib",
        reason := JVal.str "需要可视化（默认路由）" } := by
  simp only [parse_router_decision, h1]
  simp only [String.toList] at h2 h3 h4 h5 h6 h7
  simp [h2, h3, h4, h5, h6, h7]

/-- Witness for C5: a plain sentence with no extractable object and no
keyword hints resolves to the default decision. -/
theorem router_default_on_parse_failure_witness :
    parse_router_decision "hello." =
      { route := "visualization", engine := "matplotlib",
        reason := JVal.str "需要可视化（默认路由）" } :=
  router_default_on_parse_failure "hello." (by rfl) (by decide) (by decide)
    (by decide) (by decide) (by decide) (by decide)

/-- Counterexample for C6: the structured response whose route value is
`teapot` is returned with route `teapot` — neither of the two known
routes — because the normalization has no else-branch for unrecognized
route values. -/
theorem router_route_passthrough :
    (parse_router_decision "\x7b\"route\": \"teapot\"\x7d").route ≠ "general" ∧
    (parse_router_decision "\x7b\"route\": \"teapot\"\x7d").route ≠ "visualization" := by
  constructor <;> decide

/-- C6 (amended): the engine of every returned decision is one of the two
known engines, with unrecognized or malformed engine values normalized to
matplotlib; and whenever structured extraction fails, the route is one of
the two known routes.  (An unrecognized route string from a successfully
parsed object is passed through unchanged, lowercased and stripped.) -/
theorem router_engine_closed_and_fallback_routes (s : String) :
    ((parse_router_decision s).engine = "matplotlib" ∨
      (parse_router_decision s).engine = "pyecharts") ∧
    (structuredExtract s = none →
      ((parse_router_decision s).route = "general" ∨
        (parse_router_decision s).route = "visualization")) := by
  cases hx : structuredExtract s with
  | some d =>
      constructor
      · simp only [parse_router_decision, hx]
        split_ifs with hc <;> simp_all
      · intro hn
        exact absurd hn (by simp)
  | none =>
      constructor
      · simp only [parse_router_decision, hx]
        split_ifs <;> simp
      · intro _
        simp only [parse_router_decision, hx]
        split_ifs <;> simp

/-- Witness for C6 (amended), at a concrete unparseable input. -/
theorem router_engine_closed_witness :
    ((parse_router_decision "hi").engine = "matplotlib" ∨
      (parse_router_decision "hi").engine = "pyecharts") ∧
    ((parse_router_decision "hi").route = "general" ∨
      (parse_router_decision "hi").route = "visualization") :=
  ⟨(router_engine_closed_and_fallback_routes "hi").1,
   (router_engine_closed_and_fallback_routes "hi").2 (by rfl)⟩

/-- Counterexample for C4: a supported-format file that parses
successfully but yields zero data rows (a header-only CSV) makes
`read_data_schema` return a SchemaReport with total row count 0; it does
not fail with the EmptyDataset error, which is produced only when the
pandas read itself raises `EmptyDataError`. -/
theorem zero_row_parse_returns_report :
    read_data_schema zeroRowEnv "d.csv" =
      RDSResult.success
        { columns := ["x"], dtypes := ["int64"], sample_data := [],
          sampleRows := 0, totalRows := 0, cols := 1, path := "d.csv",
          ext := ".csv", sizeBytes := 42 } ∧
    read_data_schema zeroRowEnv "d.csv" ≠ RDSResult.emptyData := by
  constructor <;> decide

/-- C4 (amended): for an existing supported-format file,
`read_data_schema` fails with the EmptyDataset error exactly when the
pandas read raises the empty-data exception (file empty / no columns to
parse); a file that parses successfully with zero data rows instead
returns a SchemaReport whose total and sample row counts are 0. -/
theorem emptyDataset_iff_parse_emptyErr (env : ReadEnv) (p : String) (sz : Nat)
    (hex : lookupSize env.files p = some sz) :
    (read_data_schema env p = RDSResult.emptyData ↔
      dispatchRead env p = some ParseOutcome.emptyErr) ∧
    (∀ cols dts, dispatchRead env p = some (ParseOutcome.table cols dts []) →
      ∃ r, read_data_schema env p = RDSResult.success r ∧
        r.totalRows = 0 ∧ r.sampleRows = 0) := by
  constructor
  · unfold read_data_schema
    rw [hex]
    cases hd : dispatchRead env p with
    | none => simp
    | some o => cases o <;> simp
  · intro cols dts hd
    unfold read_data_schema
    rw [hex, hd]
    exact ⟨_, rfl, rfl, rfl⟩

/-- Witness for C4 (amended): on a file whose read raises
`EmptyDataError`, the function returns the EmptyDataset error. -/
theorem emptyDataset_iff_parse_emptyErr_witness :
    read_data_schema emptyErrEnv "e.csv" = RDSResult.emptyData :=
  (emptyDataset_iff_parse_emptyErr emptyErrEnv "e.csv" 0 (by decide)).1.2 (by decide)

/-- C7: every successful `read_data_schema` report has sample row count
`min 5 total`, total row count equal to the full count of the parsed
file's data rows (and columns equal to the parsed column list), and
column count equal to the length of the column-name sequence. -/
theorem schema_report_counts (env : ReadEnv) (p : String) (r : SchemaReport)
    (h : read_data_schema env p = RDSResult.success r) :
    r.sampleRows = min 5 r.totalRows ∧
    (∃ cols dts rows, dispatchRead env p = some (ParseOutcome.table cols dts rows) ∧
      r.totalRows = rows.length ∧ r.columns = cols) ∧
    r.cols = r.columns.length := by
  unfold read_data_schema at h
  cases hex : lookupSize env.files p with
  | none => rw [hex] at h; exact absurd h (by simp)
  | some sz =>
    rw [hex] at h
    cases hd : dispatchRead env p with
    | none => rw [hd] at h; exact absurd h (by simp)
    | some o =>
      rw [hd] at h
      cases o with
      | table cols dts rows =>
        simp only [RDSResult.success.injEq] at h
        subst h
        refine ⟨by simp [List.length_take], ⟨cols, dts, rows, rfl, rfl, rfl⟩, rfl⟩
      | emptyErr => exact absurd h (by simp)
      | err n => exact absurd h (by simp)

/-- Witness for C7: the seven-row spreadsheet fixture. -/
theorem schema_report_counts_witness :
    sevenReport.sampleRows = min 5 sevenReport.totalRows ∧
    sevenReport.cols = sevenReport.columns.length :=
  ⟨(schema_report_counts sevenRowEnv "d.xlsx" sevenReport (by decide)).1,
   (schema_report_counts sevenRowEnv "d.xlsx" sevenReport (by decide)).2.2⟩

/-- C8: for an existing file whose lowercased extension is outside the
closed set `.csv`/`.xlsx`/`.xls`, `read_data_schema` returns the
UnsupportedFormat error, and the result is the same for any behaviour of
the two pandas readers — no read of the file content is performed. -/
theorem unsupported_ext_before_read (files : List (String × Nat)) (p : String)
    (sz : Nat) (f g f2 g2 : String → ParseOutcome)
    (hex : lookupSize files p = some sz)
    (h2 : extLower p ≠ ".csv") (h3 : extLower p ≠ ".xlsx") (h4 : extLower p ≠ ".xls") :
    read_data_schema ⟨files, f, g⟩ p = RDSResult.unsupported (extLower p) ∧
    read_data_schema ⟨files, f, g⟩ p = read_data_schema ⟨files, f2, g2⟩ p := by
  constructor <;>
    · unfold read_data_schema dispatchRead
      rw [hex]
      simp [h2, h3, h4]

/-- Witness for C8: a JSON file is rejected as unsupported. -/
theorem unsupported_ext_before_read_witness :
    read_data_schema ⟨[("a.json", 3)], fun _ => ParseOutcome.err "r",
        fun _ => ParseOutcome.err "r"⟩ "a.json" =
      RDSResult.unsupported (extLower "a.json") :=
  (unsupported_ext_before_read [("a.json", 3)] "a.json" 3
    (fun _ => ParseOutcome.err "r") (fun _ => ParseOutcome.err "r")
    (fun _ => ParseOutcome.err "q") (fun _ => ParseOutcome.err "q")
    (by decide) (by decide) (by decide) (by decide)).1

/-- C3: `validate_chart_output` passes exactly when the file exists at
the resolved path, its size in KiB is at least the threshold, and the
format's mandatory structural check succeeds (PNG magic bytes for the
matplotlib engine, a decodable text containing the `<html` marker
otherwise); the supplementary `echarts` keyword never appears in the pass
condition, and a zero-byte file at the expected path never passes. -/
theorem validate_pass_characterization (engine : String) (fp : Option String)
    (min_size_kb : ℚ) (fs : FS) :
    ((validate_chart_output engine fp min_size_kb fs).isPass = true ↔
      ∃ bytes, lookupFile fs (resolveChartPath engine fp) = some bytes ∧
        min_size_kb ≤ (bytes.length : ℚ) / 1024 ∧ mandatoryOk engine bytes = true) ∧
    (lookupFile fs (resolveChartPath engine fp) = some [] →
      (validate_chart_output engine fp min_size_kb fs).isPass = false) := by
  have key : ∀ bytes, lookupFile fs (resolveChartPath engine fp) = some bytes →
      ((validate_chart_output engine fp min_size_kb fs).isPass = true ↔
        (min_size_kb ≤ (bytes.length : ℚ) / 1024 ∧ mandatoryOk engine bytes = true)) := by
    intro bytes hb
    unfold validate_chart_output mandatoryOk
    simp only [hb]
    by_cases hsize : (bytes.length : ℚ) / 1024 < min_size_kb
    · simp [if_pos hsize, VOutcome.isPass, not_le.mpr hsize]
    · rw [if_neg hsize]
      by_cases heng : engine = "matplotlib"
      · by_cases hpng : bytes.take 8 = pngSignature
        · simp [heng, hpng, VOutcome.isPass, not_lt.mp hsize]
        · simp [heng, hpng, VOutcome.isPass]
      · cases hdec : decodeUtf8 bytes with
        | none => simp [heng, hdec, VOutcome.isPass]
        | some cs =>
          simp only [if_neg heng, hdec]
          split_ifs with hhtml <;> simp [VOutcome.isPass, hhtml, not_lt.mp hsize]
  constructor
  · cases hb : lookupFile fs (resolveChartPath engine fp) with
    | none =>
      unfold validate_chart_output
      simp only [hb]
      simp [VOutcome.isPass]
    | some bytes =>
      rw [key bytes hb]
      constructor
      · rintro ⟨hle, hm⟩
        exact ⟨bytes, rfl, hle, hm⟩
      · rintro ⟨b, hb2, hle, hm⟩
        cases hb2
        exact ⟨hle, hm⟩
  · intro hz
    have hm : mandatoryOk engine [] = false := by
      unfold mandatoryOk
      split_ifs with h
      · simp [pngSignature]
      · decide
    have hiff := key [] hz
    cases hval : (validate_chart_output engine fp min_size_kb fs).isPass with
    | false => rfl
    | true => exact absurd (hiff.mp hval).2 (by simp [hm])

/-- Witness for C3: a zero-byte file at the default PNG path does not
pass. -/
theorem validate_pass_characterization_witness :
    (validate_chart_output "matplotlib" none 1 zeroFS).isPass = false :=
  (validate_pass_characterization "matplotlib" none 1 zeroFS).2 (by decide)

/-- C10: the validator branches only on whether the engine string equals
`matplotlib`: any other engine value validates exactly as the
`pyecharts` engine does (HTML document validation), with the omitted
path defaulting to the HTML location, while `matplotlib` defaults it to
the PNG location. -/
theorem validator_branches_on_matplotlib_only (engine : String) (fp : Option String)
    (min_size_kb : ℚ) (fs : FS) (h : engine ≠ "matplotlib") :
    validate_chart_output engine fp min_size_kb fs =
      validate_chart_output "pyecharts" fp min_size_kb fs ∧
    resolveChartPath engine none = "./temp/visual_result.html" ∧
    resolveChartPath "matplotlib" none = "./temp/visual_result.png" := by
  have h2 : ("pyecharts" : String) ≠ "matplotlib" := by decide
  refine ⟨?_, ?_, rfl⟩
  · unfold validate_chart_output resolveChartPath
    cases fp with
    | some p => simp [h, h2]
    | none => simp [h, h2]
  · unfold resolveChartPath
    simp [h]

/-- Witness for C10: the `plotly` engine string validates exactly like
`pyecharts`. -/
theorem validator_branches_witness :
    validate_chart_output "plotly" none 1 tinyHtmlFS =
      validate_chart_output "pyecharts" none 1 tinyHtmlFS :=
  (validator_branches_on_matplotlib_only "plotly" none 1 tinyHtmlFS (by decide)).1

end EchartsAgents
